import Mathlib

/-!
Verification development for a deployment-decision core consisting of a
dependency-graph resolver (cicd_orchestrator.py), a risk-scoring engine
(risk_assesment.py), a metric-comparison evaluator
(canary_monitoring_agent.py) and a staged-canary rollout controller
(canary_deployment.py).

Modelling conventions:
* Python numbers (ints and floats) are modelled as exact rationals, except
  counts, which are modelled as integers.  Python int() on a float is
  truncation toward zero, modelled by pyInt below.
* Python dict.get with a default is modelled by structures whose fields
  hold the effective value (a missing key behaves exactly like the default).
* External collaborators whose bodies in the source are stubs
  (metric collection, traffic routing, slot deployment) are modelled as
  oracle parameters and as an explicit trace of emitted actions.
* Python set-valued state is modelled by duplicate-free lists; all claims
  proved about it are membership- or count-based, hence independent of the
  iteration order of the set.
-/

/-- Python int() applied to a rational: truncation toward zero. -/
def pyInt (q : ℚ) : ℤ := if 0 ≤ q then ⌊q⌋ else -⌊-q⌋

/-- Arithmetic mean as computed by statistics.mean (Python raises on an
empty list; theorems about sample data carry nonemptiness hypotheses). -/
def pyMean (l : List ℚ) : ℚ := l.sum / l.length

/-! ## risk_assesment.py -/

/-- Enum RiskLevel of risk_assesment.py. -/
inductive RiskLevel where
  | LOW
  | MEDIUM
  | HIGH
  | CRITICAL
deriving DecidableEq, Repr

/-- Dataclass RiskFactor of risk_assesment.py.  The severity field is
declared int 0-100 in the source but is not enforced there; it is modelled
as a rational since some evaluators can produce fractional severities when
fed fractional inputs. -/
structure RiskFactor where
  name : String
  severity : ℚ
  category : String
  description : String
  mitigation : Option String := none
deriving DecidableEq, Repr

/-- The weights dict lookup weights.get(category, 1.0) inside
_calculate_risk_score. -/
def weights_get (category : String) : ℚ :=
  if category = "compliance" then 3/2
  else if category = "security" then 13/10
  else if category = "testing" then 1
  else if category = "infrastructure" then 4/5
  else 1

/-- weighted_sum of _calculate_risk_score. -/
def weighted_sum (factors : List RiskFactor) : ℚ :=
  (factors.map (fun f => f.severity * weights_get f.category)).sum

/-- total_weight of _calculate_risk_score. -/
def total_weight (factors : List RiskFactor) : ℚ :=
  (factors.map (fun f => weights_get f.category)).sum

/-- RiskAssessmentAgent._calculate_risk_score: 0 on an empty factor list,
otherwise int(weighted_sum / total_weight) guarded by total_weight > 0. -/
def calculate_risk_score (factors : List RiskFactor) : ℤ :=
  if factors = [] then 0
  else if total_weight factors > 0 then pyInt (weighted_sum factors / total_weight factors)
  else 0

/-- RiskAssessmentAgent._classify_risk_level. -/
def classify_risk_level (score : ℤ) : RiskLevel :=
  if score < 20 then RiskLevel.LOW
  else if score < 45 then RiskLevel.MEDIUM
  else if score < 70 then RiskLevel.HIGH
  else RiskLevel.CRITICAL

/-- Effective content of the per-service security_db entry read by
SecurityEvaluator.evaluate, with the dict.get defaults 0, 365, False. -/
structure SecurityScanResults where
  vulnerability_count : ℤ := 0
  cert_expires_in_days : ℚ := 365
  secrets_detected : Bool := false
deriving DecidableEq, Repr

/-- SecurityEvaluator.evaluate: the three conditional appends. -/
def securityEvaluate (scan : SecurityScanResults) : List RiskFactor :=
  (if scan.vulnerability_count > 0 then
    [{ name := "Known Vulnerabilities Detected",
       severity := min 50 ((scan.vulnerability_count : ℚ) * 10),
       category := "security",
       description := toString scan.vulnerability_count ++ " vulnerabilities found in dependency scan",
       mitigation := some "Review and patch vulnerabilities before deployment" }]
   else []) ++
  (if scan.cert_expires_in_days < 30 then
    [{ name := "SSL Certificate Expiring Soon",
       severity := 40,
       category := "security",
       description := "SSL certificate expires in " ++ toString scan.cert_expires_in_days ++ " days",
       mitigation := some "Renew certificate before expiration" }]
   else []) ++
  (if scan.secrets_detected then
    [{ name := "Hardcoded Secrets Detected",
       severity := 80,
       category := "security",
       description := "Hardcoded credentials found in codebase",
       mitigation := some "Remove secrets and use secret management service" }]
   else [])

/-- Effective content of the per-service test_db entry read by
TestingEvaluator.evaluate, with the dict.get defaults. -/
structure TestResults where
  code_coverage : ℚ := 0
  failed_tests : ℤ := 0
  performance_regression_percent : ℚ := 0
deriving DecidableEq, Repr

/-- TestingEvaluator.evaluate.  The severity (100 - coverage) // 2 is
Python floor division. -/
def testingEvaluate (test : TestResults) : List RiskFactor :=
  (if test.code_coverage < 70 then
    [{ name := "Low Code Coverage",
       severity := (⌊(100 - test.code_coverage) / 2⌋ : ℤ),
       category := "testing",
       description := "Code coverage is " ++ toString test.code_coverage ++ "% (target: 70%+)",
       mitigation := some "Add unit tests and integration tests" }]
   else []) ++
  (if test.failed_tests > 0 then
    [{ name := "Test Failures Detected",
       severity := 60,
       category := "testing",
       description := toString test.failed_tests ++ " tests failed",
       mitigation := some "Fix failing tests before deployment" }]
   else []) ++
  (if test.performance_regression_percent > 5 then
    [{ name := "Performance Regression Detected",
       severity := min 50 (test.performance_regression_percent * 2),
       category := "testing",
       description := "Performance degradation: " ++ toString test.performance_regression_percent ++ "%",
       mitigation := some "Optimize code or increase resource allocation" }]
   else [])

/-- Effective content of the compliance_db read by
ComplianceEvaluator.evaluate, with the dict.get defaults (a missing
change_approved key reads as False, a missing deployment_in_correct_region
key reads as True). -/
structure ComplianceDb where
  change_approved : Bool := false
  restricted_deployment_windows : List ℤ := []
  data_residency_required : Bool := false
  deployment_in_correct_region : Bool := true
deriving DecidableEq, Repr

/-- ComplianceEvaluator.evaluate.  The wall-clock hour datetime.now().hour
is an external input, passed as now_hour. -/
def complianceEvaluate (db : ComplianceDb) (environment : String) (now_hour : ℤ) :
    List RiskFactor :=
  (if !db.change_approved then
    [{ name := "Change Not Approved",
       severity := 100,
       category := "compliance",
       description := "Release not approved by change management board",
       mitigation := some "Submit and obtain change approval" }]
   else []) ++
  (if environment = "production" && db.restricted_deployment_windows.contains now_hour then
    [{ name := "Deployment Outside Approved Window",
       severity := 40,
       category := "compliance",
       description := "Current hour " ++ toString now_hour ++ " is in restricted window",
       mitigation := some "Deploy during approved maintenance windows" }]
   else []) ++
  (if db.data_residency_required && !db.deployment_in_correct_region then
    [{ name := "Data Residency Violation",
       severity := 85,
       category := "compliance",
       description := "Service not deployed in compliant region",
       mitigation := some "Redeploy to correct geographic region" }]
   else [])

/-- Effective content of the per-service infra_db entry read by
InfrastructureEvaluator.evaluate, with the dict.get defaults. -/
structure InfraStatus where
  cluster_health : ℚ := 100
  disk_usage_percent : ℚ := 0
  deployments_in_queue : ℤ := 0
deriving DecidableEq, Repr

/-- InfrastructureEvaluator.evaluate. -/
def infrastructureEvaluate (infra : InfraStatus) : List RiskFactor :=
  (if infra.cluster_health < 80 then
    [{ name := "Degraded Cluster Health",
       severity := 100 - infra.cluster_health,
       category := "infrastructure",
       description := "Cluster health score: " ++ toString infra.cluster_health ++ "%",
       mitigation := some "Investigate and resolve cluster issues before deployment" }]
   else []) ++
  (if infra.disk_usage_percent > 85 then
    [{ name := "High Disk Usage",
       severity := 30,
       category := "infrastructure",
       description := "Disk usage: " ++ toString infra.disk_usage_percent ++ "%",
       mitigation := some "Clean up old logs/data or expand storage" }]
   else []) ++
  (if infra.deployments_in_queue > 5 then
    [{ name := "Pipeline Congestion",
       severity := 20,
       category := "infrastructure",
       description := toString infra.deployments_in_queue ++ " deployments queued",
       mitigation := some "Wait for pipeline capacity or stagger deployment" }]
   else [])

/-- Stable descending insertion used to model Python
sorted(factors, key severity, reverse) in the assess report. -/
def insertBySeverityDesc (f : RiskFactor) : List RiskFactor → List RiskFactor
  | [] => [f]
  | g :: gs =>
    if g.severity ≤ f.severity then f :: g :: gs else g :: insertBySeverityDesc f gs

/-- Stable descending sort by severity, as in the factors field of the
assess report. -/
def sortBySeverityDesc : List RiskFactor → List RiskFactor
  | [] => []
  | f :: fs => insertBySeverityDesc f (sortBySeverityDesc fs)

/-- The inputs consumed by one RiskAssessmentAgent.assess call: the four
data sources for the service under assessment, the environment from the
DeploymentContext, and the wall-clock hour. -/
structure AssessInput where
  security : SecurityScanResults
  testing : TestResults
  compliance : ComplianceDb
  infra : InfraStatus
  environment : String
  now_hour : ℤ
deriving DecidableEq, Repr

/-- all_factors of RiskAssessmentAgent.assess: concatenation of the four
evaluator outputs, in source order. -/
def assessFactors (i : AssessInput) : List RiskFactor :=
  securityEvaluate i.security ++ testingEvaluate i.testing ++
    complianceEvaluate i.compliance i.environment i.now_hour ++
    infrastructureEvaluate i.infra

/-- The decision-relevant fields of the report dict built by
RiskAssessmentAgent.assess (timestamp and service metadata omitted). -/
structure RiskReport where
  risk_score : ℤ
  risk_level : RiskLevel
  factors : List RiskFactor
  autonomous_decision : Bool
deriving DecidableEq, Repr

/-- RiskAssessmentAgent.assess: composite score, classification, factor
list sorted by descending severity, and the autonomous decision
risk_score < 30. -/
def assess (i : AssessInput) : RiskReport :=
  let all_factors := assessFactors i
  let risk_score := calculate_risk_score all_factors
  { risk_score := risk_score,
    risk_level := classify_risk_level risk_score,
    factors := sortBySeverityDesc all_factors,
    autonomous_decision := decide (risk_score < 30) }

/-- The severity-100 compliance factor raised by
ComplianceEvaluator.evaluate when the change is not approved. -/
def change_not_approved_factor : RiskFactor :=
  { name := "Change Not Approved", severity := 100, category := "compliance",
    description := "Release not approved by change management board",
    mitigation := some "Submit and obtain change approval" }

/-- A concrete assessment input: every data source healthy, but the change
is not approved. -/
def unapprovedAssessInput : AssessInput :=
  { security := {}, testing := { code_coverage := 100 }, compliance := {},
    infra := {}, environment := "production", now_hour := 12 }

/-! ## canary_monitoring_agent.py -/

/-- One entry of the metric_comparisons dict built by
CanaryMonitoringAgent.compare_versions. -/
structure MetricResult where
  baseline_avg : ℚ
  canary_avg : ℚ
  percent_change : ℚ
  status : String
deriving DecidableEq, Repr

/-- One entry of the issues_detected list of compare_versions. -/
structure MetricIssue where
  metric : String
  severity : String
  change_percent : ℚ
deriving DecidableEq, Repr

/-- The result dict of compare_versions. -/
structure VersionComparison where
  service : String
  baseline_version : String
  canary_version : String
  metric_comparisons : List (String × MetricResult)
  issues_detected : List MetricIssue
  rollback_recommended : Bool
deriving DecidableEq, Repr

/-- The fixed metrics_to_compare list of compare_versions. -/
def metrics_to_compare : List String :=
  ["request_latency_p99", "error_rate", "cpu_usage", "memory_usage", "cache_hit_ratio"]

/-- The alert_threshold set in CanaryMonitoringAgent.__init__. -/
def alert_threshold : ℚ := 15/100

/-- Python round(x, 2) modelled with Mathlib round (Python uses
round-half-to-even; the two differ only at exact half-cent values and no
claim depends on the change_percent field). -/
def pyRound2 (q : ℚ) : ℚ := (round (q * 100) : ℤ) / 100

/-- Percentage change of one metric in compare_versions: guarded division
by the baseline mean, 0 when the baseline mean is not positive.  The
prometheus query results are an oracle prom taking the metric name, the
service and the version. -/
def pctChange (prom : String → String → String → List ℚ)
    (service baseline_version canary_version metric : String) : ℚ :=
  let baseline_avg := pyMean (prom metric service baseline_version)
  let canary_avg := pyMean (prom metric service canary_version)
  if baseline_avg > 0 then |canary_avg - baseline_avg| / baseline_avg else 0

/-- The metric_result record built for one metric by compare_versions. -/
def metricResultFor (prom : String → String → String → List ℚ)
    (service baseline_version canary_version metric : String) : MetricResult :=
  let pct := pctChange prom service baseline_version canary_version metric
  { baseline_avg := pyMean (prom metric service baseline_version),
    canary_avg := pyMean (prom metric service canary_version),
    percent_change := pct,
    status := if pct > alert_threshold then "DEGRADED" else "HEALTHY" }

/-- The issues (zero or one) appended for one metric by compare_versions. -/
def issuesFor (prom : String → String → String → List ℚ)
    (service baseline_version canary_version metric : String) : List MetricIssue :=
  let pct := pctChange prom service baseline_version canary_version metric
  if pct > alert_threshold then
    [{ metric := metric,
       severity := if pct > 25/100 then "HIGH" else "MEDIUM",
       change_percent := pyRound2 (pct * 100) }]
  else []

/-- CanaryMonitoringAgent.compare_versions.  The loop over
metrics_to_compare builds the comparison entries and the issue list
independently per metric; rollback_recommended is set iff at least two
issues have severity HIGH. -/
def compare_versions (prom : String → String → String → List ℚ)
    (service baseline_version canary_version : String) : VersionComparison :=
  let mcs := metrics_to_compare.map
    (fun metric => (metric, metricResultFor prom service baseline_version canary_version metric))
  let issues := metrics_to_compare.flatMap
    (fun metric => issuesFor prom service baseline_version canary_version metric)
  let critical_issues := (issues.filter (fun i => i.severity == "HIGH")).length
  { service := service,
    baseline_version := baseline_version,
    canary_version := canary_version,
    metric_comparisons := mcs,
    issues_detected := issues,
    rollback_recommended := decide (critical_issues ≥ 2) }

/-! ## canary_deployment.py -/

/-- The metrics dict returned by the _collect_metrics collaborator, read
with defaults 0 by _evaluate_canary_metrics. -/
structure CanaryMetrics where
  error_rate : ℚ := 0
  latency_p99_ms : ℚ := 0
  cpu_percent : ℚ := 0
deriving DecidableEq, Repr

/-- The evaluation dict returned by
CanaryDeploymentAgent._evaluate_canary_metrics. -/
structure CanaryEvaluation where
  healthy : Bool
  reason : String
  error_rate : ℚ
  latency_p99_ms : ℚ
  cpu_percent : ℚ
deriving DecidableEq, Repr

/-- CanaryDeploymentAgent._evaluate_canary_metrics: three threshold
checks, healthy iff no issue, reason is the joined issue list. -/
def evaluate_canary_metrics (m : CanaryMetrics) : CanaryEvaluation :=
  let issues :=
    (if m.error_rate > 2 then
      ["Error rate " ++ toString m.error_rate ++ "% > 2% threshold"] else []) ++
    (if m.latency_p99_ms > 150 then
      ["P99 latency " ++ toString m.latency_p99_ms ++ "ms > 150ms threshold"] else []) ++
    (if m.cpu_percent > 80 then
      ["CPU usage " ++ toString m.cpu_percent ++ "% > 80% threshold"] else [])
  { healthy := issues.isEmpty,
    reason := if issues.isEmpty then "All metrics healthy" else String.intercalate "; " issues,
    error_rate := m.error_rate,
    latency_p99_ms := m.latency_p99_ms,
    cpu_percent := m.cpu_percent }

/-- One emitted collaborator call of deploy_canary.  The stubbed Azure
collaborators (_deploy_to_slot, _set_traffic_split, _swap_slots) are
modelled as a trace of actions in call order. -/
inductive CanaryAction where
  | deployToSlot (app_name slot version : String)
  | setTrafficSplit (app_name : String) (production_percent staging_percent : ℤ)
  | swapSlots (app_name primary secondary : String)
deriving DecidableEq, Repr

/-- One entry of the stages list in the deploy_canary result dict
(the raw metrics are recoverable from the evaluation fields). -/
structure CanaryStageRecord where
  stage : ℕ
  traffic_percent : ℤ
  evaluation : CanaryEvaluation
  passed : Bool
deriving DecidableEq, Repr

/-- The deploy_canary result dict (deployment_id timestamp omitted). -/
structure CanaryResult where
  stages : List CanaryStageRecord
  status : String
  rollback_reason : Option String
deriving DecidableEq, Repr

/-- The canary_stages constant [5, 25, 50, 100] of deploy_canary, paired
with the 1-based stage numbers of enumerate(canary_stages, 1). -/
def canary_stages : List (ℕ × ℤ) := [(1, 5), (2, 25), (3, 50), (4, 100)]

/-- The stage loop of deploy_canary.  collect is the _collect_metrics
oracle, keyed by the stage number during which it is called.  Each
iteration deploys to the staging slot at stage 1, sets the traffic split
to (100 - pct, pct), evaluates the collected metrics and either proceeds,
or instantly restores the (100, 0) split and returns ROLLED_BACK with the
evaluation reason. -/
def canaryLoop (collect : ℕ → CanaryMetrics) (app_name new_version : String) :
    List (ℕ × ℤ) → CanaryResult → List CanaryAction → CanaryResult × List CanaryAction
  | [], result, actions =>
    ({ result with status := "SUCCESS" },
      actions ++ [CanaryAction.swapSlots app_name "production" "staging"])
  | (stage_num, traffic_pct) :: rest, result, actions =>
    let actions := actions ++
      (if stage_num = 1 then [CanaryAction.deployToSlot app_name "staging" new_version] else []) ++
      [CanaryAction.setTrafficSplit app_name (100 - traffic_pct) traffic_pct]
    let evaluation := evaluate_canary_metrics (collect stage_num)
    let result := { result with
      stages := result.stages ++
        [{ stage := stage_num, traffic_percent := traffic_pct,
           evaluation := evaluation, passed := evaluation.healthy }] }
    if evaluation.healthy then
      canaryLoop collect app_name new_version rest result actions
    else
      ({ result with status := "ROLLED_BACK", rollback_reason := some evaluation.reason },
        actions ++ [CanaryAction.setTrafficSplit app_name 100 0])

/-- CanaryDeploymentAgent.deploy_canary, returning the result dict and the
trace of collaborator calls. -/
def deploy_canary (collect : ℕ → CanaryMetrics) (app_name new_version : String) :
    CanaryResult × List CanaryAction :=
  canaryLoop collect app_name new_version canary_stages
    { stages := [], status := "IN_PROGRESS", rollback_reason := none } []

/-! ## cicd_orchestrator.py -/

/-- Enum CloudProvider of cicd_orchestrator.py. -/
inductive CloudProvider where
  | aws
  | azure
  | gcp
deriving DecidableEq, Repr

/-- Dataclass ServiceDependency of cicd_orchestrator.py. -/
structure ServiceDependency where
  service_name : String
  min_version : String := ""
  location : CloudProvider := CloudProvider.aws
  region : String := ""
  requires_health_check : Bool := false
  estimated_latency_ms : ℚ := 0
  deployment_order : String := "before"
deriving DecidableEq, Repr

/-- The dependency_map dict of DependencyGraphAgent. -/
abbrev DependencyMap := List (String × List ServiceDependency)

/-- dependency_map.get(service, []) of discover_deployment_order. -/
def dmGet (dm : DependencyMap) (service : String) : List ServiceDependency :=
  match dm.find? (fun p => p.1 == service) with
  | some p => p.2
  | none => []

/-- undeployed_deps of discover_deployment_order: the names of declared
dependencies that are still in the remaining set and are not the service
itself.  Note the source filters on membership in remaining and on the
self check only; the deployment_order hint is never consulted. -/
def undeployed_deps (dm : DependencyMap) (remaining : List String) (service : String) :
    List String :=
  ((dmGet dm service).filter
    (fun d => remaining.contains d.service_name && d.service_name != service)).map
    (fun d => d.service_name)

/-- The while loop of discover_deployment_order, with the remaining Python
set represented as a duplicate-free list and with explicit fuel (each
productive iteration strictly shrinks remaining, so fuel equal to the size
of the initial set is never exhausted; the fuel-0 branch is unreachable
from discover_deployment_order).  The stage membership is exactly the set
of remaining services with no undeployed dependency, so it is independent
of the Python set iteration order. -/
def discoverLoop (dm : DependencyMap) :
    ℕ → List String → List (List String) × List String
  | 0, _ => ([], [])
  | fuel + 1, remaining =>
    if remaining.isEmpty then ([], [])
    else
      let current_stage := remaining.filter (fun s => (undeployed_deps dm remaining s).isEmpty)
      if current_stage.isEmpty then
        ([], ["Circular dependency detected in: " ++ toString remaining])
      else
        let next := discoverLoop dm fuel
          (remaining.filter (fun s => !(undeployed_deps dm remaining s).isEmpty))
        (current_stage :: next.1, next.2)

/-- DependencyGraphAgent.discover_deployment_order.  set(services) is
modelled as services.dedup (claims about the result are membership- and
count-based, hence independent of set iteration order). -/
def discover_deployment_order (dm : DependencyMap) (services : List String) :
    List (List String) × List String :=
  discoverLoop dm services.dedup.length services.dedup

/-- Index of the stage-group containing a service in a deployment plan. -/
def stageIndex (stages : List (List String)) (service : String) : ℕ :=
  stages.findIdx (fun g => g.contains service)

/-- Acyclicity of the declared dependency graph restricted to the
requested services: a topological ranking exists under which every
declared dependency edge between requested services strictly decreases.
On finite graphs this is equivalent to the absence of directed cycles
(a ranking orders any cycle strictly into itself, and conversely a DAG
has a topological ranking). -/
def AcyclicOn (dm : DependencyMap) (services : List String) : Prop :=
  ∃ rank : String → ℕ, ∀ s ∈ services, ∀ d ∈ dmGet dm s,
    d.service_name ∈ services → rank d.service_name < rank s

/-- dependency_map with every self-edge removed, used to state that
discover_deployment_order ignores self-dependencies. -/
def stripSelfDeps (dm : DependencyMap) : DependencyMap :=
  dm.map (fun p => (p.1, p.2.filter (fun d => d.service_name != p.1)))

/-- A dependency edge declaring only a parallel_with ordering hint. -/
def parallel_only_dependency : ServiceDependency :=
  { service_name := "svc-a", deployment_order := "parallel_with" }

/-- A dependency map connecting svc-b to svc-a only through a
parallel_with edge. -/
def parallelDependencyMap : DependencyMap := [("svc-b", [parallel_only_dependency])]

/-- A dependency edge of a service on itself. -/
def self_dependency : ServiceDependency :=
  { service_name := "svc-a", deployment_order := "before" }

/-- A dependency map whose single service declares only itself as a
dependency. -/
def selfDependencyMap : DependencyMap := [("svc-a", [self_dependency])]

/-- A dependency map in which payment-service declares auth-service as a
before-type dependency. -/
def beforeDependencyMap : DependencyMap :=
  [("payment-service",
    [{ service_name := "auth-service", deployment_order := "before" }])]

/-- Spec-side weight table, following the specification words: weights per
category compliance 1.5, security 1.3, testing 1.0, infrastructure 0.8
(no default for other categories; 0 outside the table). -/
def spec_weight (category : String) : ℚ :=
  if category = "compliance" then 3/2
  else if category = "security" then 13/10
  else if category = "testing" then 1
  else if category = "infrastructure" then 4/5
  else 0

/-- Spec-side composite score, following the specification words: the
weighted average of factor severities rounded to the nearest integer, 0
for no factors.  This is a refinement-comparison definition written from
the specification, not a source translation. -/
def spec_rounded_score (factors : List RiskFactor) : ℤ :=
  if factors = [] then 0
  else round ((factors.map (fun f => f.severity * spec_weight f.category)).sum /
              (factors.map (fun f => spec_weight f.category)).sum)

/-! ## Helper lemmas -/

section Helpers

lemma pyInt_of_nonneg {q : ℚ} (h : 0 ≤ q) : pyInt q = ⌊q⌋ := if_pos h

lemma pyInt_mono {q r : ℚ} (h : q ≤ r) : pyInt q ≤ pyInt r := by
  unfold pyInt
  rcases le_or_lt 0 q with hq | hq
  · rw [if_pos hq, if_pos (hq.trans h)]
    exact Int.floor_le_floor h
  · rw [if_neg (not_le.mpr hq)]
    rcases le_or_lt 0 r with hr | hr
    · rw [if_pos hr]
      have h1 : (0:ℤ) ≤ ⌊-q⌋ := Int.floor_nonneg.mpr (by linarith)
      have h2 : (0:ℤ) ≤ ⌊r⌋ := Int.floor_nonneg.mpr hr
      omega
    · rw [if_neg (not_le.mpr hr)]
      have : ⌊-r⌋ ≤ ⌊-q⌋ := Int.floor_le_floor (by linarith)
      omega

lemma le_pyInt {n : ℤ} {q : ℚ} (hn : 0 ≤ n) (h : (n:ℚ) ≤ q) : n ≤ pyInt q := by
  have hq : 0 ≤ q := le_trans (by exact_mod_cast hn) h
  rw [pyInt_of_nonneg hq]
  exact Int.le_floor.mpr h

lemma weights_get_pos (c : String) : 0 < weights_get c := by
  unfold weights_get
  split_ifs <;> norm_num

lemma weights_get_testing : weights_get "testing" = 1 := rfl

lemma spec_weight_testing : spec_weight "testing" = 1 := rfl

lemma weights_get_security : weights_get "security" = 13/10 := rfl

lemma weights_get_compliance : weights_get "compliance" = 3/2 := rfl

lemma weights_get_infrastructure : weights_get "infrastructure" = 4/5 := rfl

lemma total_weight_append (a b : List RiskFactor) :
    total_weight (a ++ b) = total_weight a + total_weight b := by
  simp [total_weight]

lemma weighted_sum_append (a b : List RiskFactor) :
    weighted_sum (a ++ b) = weighted_sum a + weighted_sum b := by
  simp [weighted_sum]

/-- The risk-deficit of a factor list measures how far its weighted
severities fall below a uniform severity of 30; a nonpositive total
deficit forces a weighted average of at least 30. -/
lemma deficit_append (a b : List RiskFactor) :
    30 * total_weight (a ++ b) - weighted_sum (a ++ b) =
      (30 * total_weight a - weighted_sum a) + (30 * total_weight b - weighted_sum b) := by
  rw [total_weight_append, weighted_sum_append]
  ring

lemma security_deficit (scan : SecurityScanResults) :
    30 * total_weight (securityEvaluate scan) - weighted_sum (securityEvaluate scan) ≤ 26 := by
  unfold securityEvaluate
  split_ifs with h1 h2 h3 <;>
    simp [total_weight, weighted_sum, weights_get_security] <;>
  · try have hv1 : (1 : ℚ) ≤ (scan.vulnerability_count : ℚ) := by exact_mod_cast h1
    try have hmin : (10 : ℚ) ≤ min 50 ((scan.vulnerability_count : ℚ) * 10) :=
      le_min (by norm_num) (by linarith)
    linarith

lemma testing_deficit (test : TestResults) :
    30 * total_weight (testingEvaluate test) - weighted_sum (testingEvaluate test) ≤ 35 := by
  unfold testingEvaluate
  split_ifs with h1 h2 h3 <;>
    simp [total_weight, weighted_sum, weights_get_testing]
  all_goals try (
    have hfl : (15 : ℚ) ≤ ((⌊(100 - test.code_coverage) / 2⌋ : ℤ) : ℚ) := by
      have h15 : (15 : ℤ) ≤ ⌊(100 - test.code_coverage) / 2⌋ := by
        apply Int.le_floor.mpr
        push_cast
        linarith
      exact_mod_cast h15)
  all_goals try (
    have hperf : (10 : ℚ) ≤ min 50 (test.performance_regression_percent * 2) :=
      le_min (by norm_num) (by linarith))
  all_goals linarith

lemma compliance_deficit (db : ComplianceDb) (env : String) (hour : ℤ)
    (happ : db.change_approved = false) :
    30 * total_weight (complianceEvaluate db env hour) -
      weighted_sum (complianceEvaluate db env hour) ≤ -105 := by
  unfold complianceEvaluate
  rw [happ]
  split_ifs <;>
    simp_all [total_weight, weighted_sum, weights_get_compliance] <;>
    linarith

lemma infrastructure_deficit (infra : InfraStatus) :
    30 * total_weight (infrastructureEvaluate infra) -
      weighted_sum (infrastructureEvaluate infra) ≤ 16 := by
  unfold infrastructureEvaluate
  split_ifs with h1 h2 h3 <;>
    simp [total_weight, weighted_sum, weights_get_infrastructure] <;>
    linarith

lemma length_filter_lt_of_mem {α : Type} {l : List α} {p : α → Bool} {a : α}
    (ha : a ∈ l) (hpa : p a = false) : (l.filter p).length < l.length := by
  induction l with
  | nil => cases ha
  | cons b t ih =>
    rcases List.mem_cons.mp ha with rfl | hat
    · rw [List.filter_cons, hpa]
      simp only [Bool.false_eq_true, if_false, List.length_cons]
      exact Nat.lt_succ_of_le (List.length_filter_le p t)
    · cases hpb : p b
      · rw [List.filter_cons, hpb]
        simp only [Bool.false_eq_true, if_false, List.length_cons]
        exact Nat.lt_succ_of_lt (ih hat)
      · rw [List.filter_cons, hpb]
        simp only [if_true, List.length_cons]
        exact Nat.succ_lt_succ (ih hat)

lemma exists_rank_min (rank : String → ℕ) :
    ∀ (l : List String), l ≠ [] → ∃ m ∈ l, ∀ x ∈ l, rank m ≤ rank x := by
  intro l
  induction l with
  | nil => intro h; exact absurd rfl h
  | cons a t ih =>
    intro _
    by_cases ht : t = []
    · subst ht
      exact ⟨a, by simp, by simp⟩
    · obtain ⟨m, hm, hmin⟩ := ih ht
      by_cases hc : rank a ≤ rank m
      · refine ⟨a, by simp, ?_⟩
        intro x hx
        rcases List.mem_cons.mp hx with rfl | hxt
        · exact le_refl _
        · exact le_trans hc (hmin x hxt)
      · refine ⟨m, by simp [hm], ?_⟩
        intro x hx
        rcases List.mem_cons.mp hx with rfl | hxt
        · exact le_of_lt (lt_of_not_le hc)
        · exact hmin x hxt

lemma stageIndex_cons_of_mem {g : List String} {x : String} (gs : List (List String))
    (hx : x ∈ g) : stageIndex (g :: gs) x = 0 := by
  simp [stageIndex, List.findIdx_cons, hx]

lemma stageIndex_cons_of_not_mem {g : List String} {x : String} (gs : List (List String))
    (hx : x ∉ g) : stageIndex (g :: gs) x = stageIndex gs x + 1 := by
  simp [stageIndex, List.findIdx_cons, hx]

lemma mem_undeployed_deps {dm : DependencyMap} {remaining : List String}
    {s : String} {d : ServiceDependency} (hd : d ∈ dmGet dm s)
    (hmem : d.service_name ∈ remaining) (hne : d.service_name ≠ s) :
    d.service_name ∈ undeployed_deps dm remaining s := by
  unfold undeployed_deps
  refine List.mem_map.mpr ⟨d, List.mem_filter.mpr ⟨hd, ?_⟩, rfl⟩
  rw [Bool.and_eq_true]
  exact ⟨List.elem_eq_true_of_mem hmem, bne_iff_ne.mpr hne⟩

lemma dmGet_stripSelfDeps (dm : DependencyMap) (s : String) :
    dmGet (stripSelfDeps dm) s = (dmGet dm s).filter (fun d => d.service_name != s) := by
  induction dm with
  | nil => rfl
  | cons p t ih =>
    obtain ⟨k, deps⟩ := p
    simp only [stripSelfDeps, List.map_cons] at *
    unfold dmGet
    rw [List.find?_cons, List.find?_cons]
    cases hk : (k == s)
    · simp only [cond_false]
      exact ih
    · simp only [cond_true]
      have : k = s := by simpa using hk
      subst this
      rfl

lemma undeployed_deps_stripSelfDeps (dm : DependencyMap) (remaining : List String)
    (s : String) :
    undeployed_deps (stripSelfDeps dm) remaining s = undeployed_deps dm remaining s := by
  unfold undeployed_deps
  rw [dmGet_stripSelfDeps, List.filter_filter]
  congr 1
  apply List.filter_congr
  intro d _
  cases h : (d.service_name != s) <;>
    simp [h]

lemma discoverLoop_stripSelfDeps (dm : DependencyMap) :
    ∀ (fuel : ℕ) (remaining : List String),
      discoverLoop (stripSelfDeps dm) fuel remaining = discoverLoop dm fuel remaining := by
  intro fuel
  induction fuel with
  | zero => intro remaining; rfl
  | succ n ih =>
    intro remaining
    simp only [discoverLoop, undeployed_deps_stripSelfDeps, ih]

lemma discoverLoop_succ_step (dm : DependencyMap) (n : ℕ) (remaining : List String)
    (h1 : remaining.isEmpty = false)
    (h2 : (remaining.filter
      (fun s => (undeployed_deps dm remaining s).isEmpty)).isEmpty = false) :
    discoverLoop dm (n + 1) remaining =
      ((remaining.filter (fun s => (undeployed_deps dm remaining s).isEmpty)) ::
        (discoverLoop dm n (remaining.filter
          (fun s => !(undeployed_deps dm remaining s).isEmpty))).1,
       (discoverLoop dm n (remaining.filter
          (fun s => !(undeployed_deps dm remaining s).isEmpty))).2) := by
  conv_lhs => rw [discoverLoop]
  simp only [h1, h2, Bool.false_eq_true, if_false]

/-- Invariant of the stage-collection loop of discover_deployment_order:
on a duplicate-free remaining set whose in-set dependency edges carry a
strictly decreasing rank, the loop reports no error, stages every
remaining service exactly once, and places every in-set dependency of a
service into a strictly earlier stage-group. -/
lemma discoverLoop_spec (dm : DependencyMap) (rank : String → ℕ) :
    ∀ (fuel : ℕ) (remaining : List String),
      remaining.length ≤ fuel → remaining.Nodup →
      (∀ s ∈ remaining, ∀ d ∈ dmGet dm s, d.service_name ∈ remaining →
        rank d.service_name < rank s) →
      ((discoverLoop dm fuel remaining).2 = [] ∧
       (discoverLoop dm fuel remaining).1.flatten.Nodup ∧
       (∀ x, x ∈ (discoverLoop dm fuel remaining).1.flatten ↔ x ∈ remaining) ∧
       (∀ s ∈ remaining, ∀ d ∈ dmGet dm s, d.service_name ∈ remaining →
         stageIndex (discoverLoop dm fuel remaining).1 d.service_name <
           stageIndex (discoverLoop dm fuel remaining).1 s)) := by
  intro fuel
  induction fuel with
  | zero =>
    intro remaining hlen _ _
    have hnil : remaining = [] := List.eq_nil_of_length_eq_zero (Nat.le_zero.mp hlen)
    subst hnil
    refine ⟨rfl, by simp [discoverLoop], by simp [discoverLoop], by simp⟩
  | succ n ih =>
    intro remaining hlen hnd hrank
    by_cases hemp : remaining.isEmpty
    · have hnil : remaining = [] := by simpa using hemp
      subst hnil
      refine ⟨by simp [discoverLoop], by simp [discoverLoop], by simp [discoverLoop], by simp⟩
    · have hemp' : remaining.isEmpty = false := by
        revert hemp
        cases remaining.isEmpty <;> simp
      have hne : remaining ≠ [] := by
        intro h
        rw [h] at hemp'
        cases hemp'
      obtain ⟨m, hmR, hmmin⟩ := exists_rank_min rank remaining hne
      have hmready : (undeployed_deps dm remaining m).isEmpty = true := by
        by_contra hnr
        have hex : undeployed_deps dm remaining m ≠ [] := by
          intro h
          rw [h] at hnr
          exact hnr rfl
        obtain ⟨y, hy⟩ := List.exists_mem_of_ne_nil _ hex
        obtain ⟨d, hdfil, rfl⟩ := List.mem_map.mp hy
        have hdmem := List.mem_filter.mp hdfil
        have hprop := hdmem.2
        rw [Bool.and_eq_true] at hprop
        have hdR : d.service_name ∈ remaining := by
          have := hprop.1
          exact List.mem_of_elem_eq_true this
        have hlt := hrank m hmR d hdmem.1 hdR
        exact absurd (hmmin d.service_name hdR) (not_le.mpr hlt)
      have hmst : m ∈ remaining.filter (fun s => (undeployed_deps dm remaining s).isEmpty) :=
        List.mem_filter.mpr ⟨hmR, hmready⟩
      have hstage' : (remaining.filter
          (fun s => (undeployed_deps dm remaining s).isEmpty)).isEmpty = false := by
        have hne2 := List.ne_nil_of_mem hmst
        revert hne2
        cases h : (remaining.filter (fun s => (undeployed_deps dm remaining s).isEmpty)) <;>
          simp
      have hstep := discoverLoop_succ_step dm n remaining hemp' hstage'
      have hlen2 : (remaining.filter
          (fun s => !(undeployed_deps dm remaining s).isEmpty)).length ≤ n := by
        have hlt : (remaining.filter
            (fun s => !(undeployed_deps dm remaining s).isEmpty)).length < remaining.length :=
          length_filter_lt_of_mem hmR (by simp [hmready])
        omega
      have hnd2 : (remaining.filter
          (fun s => !(undeployed_deps dm remaining s).isEmpty)).Nodup := hnd.filter _
      have hsub2 : ∀ x ∈ remaining.filter
          (fun s => !(undeployed_deps dm remaining s).isEmpty), x ∈ remaining :=
        fun x hx => (List.mem_filter.mp hx).1
      have hrank2 : ∀ s ∈ remaining.filter
          (fun s => !(undeployed_deps dm remaining s).isEmpty), ∀ d ∈ dmGet dm s,
          d.service_name ∈ remaining.filter
            (fun s => !(undeployed_deps dm remaining s).isEmpty) →
          rank d.service_name < rank s :=
        fun s hs d hd hdn => hrank s (hsub2 s hs) d hd (hsub2 _ hdn)
      obtain ⟨ih1, ih2, ih3, ih4⟩ := ih _ hlen2 hnd2 hrank2
      have hsplit : ∀ x, x ∈ remaining ↔
          x ∈ remaining.filter (fun s => (undeployed_deps dm remaining s).isEmpty) ∨
          x ∈ remaining.filter (fun s => !(undeployed_deps dm remaining s).isEmpty) := by
        intro x
        constructor
        · intro hx
          by_cases hr : (undeployed_deps dm remaining x).isEmpty
          · exact Or.inl (List.mem_filter.mpr ⟨hx, hr⟩)
          · refine Or.inr (List.mem_filter.mpr ⟨hx, ?_⟩)
            revert hr
            cases (undeployed_deps dm remaining x).isEmpty <;> simp
        · rintro (hx | hx) <;> exact (List.mem_filter.mp hx).1
      rw [hstep]
      refine ⟨ih1, ?_, ?_, ?_⟩
      · rw [List.flatten_cons]
        refine List.Nodup.append (hnd.filter _) ih2 ?_
        intro x hx1 hx2
        have hx1' := List.mem_filter.mp hx1
        have hx2' := List.mem_filter.mp ((ih3 x).mp hx2)
        rw [hx1'.2] at hx2'
        cases hx2'.2
      · intro x
        rw [List.flatten_cons, List.mem_append, ih3]
        exact (hsplit x).symm
      · intro s hs d hd hdn
        by_cases hsst : s ∈ remaining.filter (fun t => (undeployed_deps dm remaining t).isEmpty)
        · exfalso
          have hne2 : d.service_name ≠ s := by
            intro h
            have := hrank s hs d hd hdn
            rw [h] at this
            exact lt_irrefl _ this
          have hmemu := mem_undeployed_deps hd hdn hne2
          have hready := (List.mem_filter.mp hsst).2
          have : undeployed_deps dm remaining s = [] := by simpa using hready
          rw [this] at hmemu
          cases hmemu
        · have hsR2 : s ∈ remaining.filter
              (fun t => !(undeployed_deps dm remaining t).isEmpty) := by
            rcases (hsplit s).mp hs with h | h
            · exact absurd h hsst
            · exact h
          rw [stageIndex_cons_of_not_mem _ hsst]
          by_cases hdst : d.service_name ∈ remaining.filter
              (fun t => (undeployed_deps dm remaining t).isEmpty)
          · rw [stageIndex_cons_of_mem _ hdst]
            exact Nat.succ_pos _
          · have hdR2 : d.service_name ∈ remaining.filter
                (fun t => !(undeployed_deps dm remaining t).isEmpty) := by
              rcases (hsplit d.service_name).mp hdn with h | h
              · exact absurd h hdst
              · exact h
            rw [stageIndex_cons_of_not_mem _ hdst]
            exact Nat.succ_lt_succ (ih4 s hsR2 d hd hdR2)

lemma mem_insertBySeverityDesc (a f : RiskFactor) (l : List RiskFactor) :
    a ∈ insertBySeverityDesc f l ↔ a = f ∨ a ∈ l := by
  induction l with
  | nil => simp [insertBySeverityDesc]
  | cons g gs ih =>
    unfold insertBySeverityDesc
    split_ifs with hle
    · simp
    · simp [ih]
      tauto

lemma mem_sortBySeverityDesc (a : RiskFactor) (l : List RiskFactor) :
    a ∈ sortBySeverityDesc l ↔ a ∈ l := by
  induction l with
  | nil => simp [sortBySeverityDesc]
  | cons f fs ih =>
    unfold sortBySeverityDesc
    rw [mem_insertBySeverityDesc]
    simp [ih]

lemma total_weight_nonneg (fs : List RiskFactor) : 0 ≤ total_weight fs := by
  unfold total_weight
  apply List.sum_nonneg
  intro x hx
  obtain ⟨f, _, rfl⟩ := List.mem_map.mp hx
  exact (weights_get_pos f.category).le

lemma total_weight_pos {fs : List RiskFactor} (h : fs ≠ []) : 0 < total_weight fs := by
  cases fs with
  | nil => exact absurd rfl h
  | cons f t =>
    have h1 : total_weight (f :: t) = weights_get f.category + total_weight t := by
      simp [total_weight]
    rw [h1]
    have := weights_get_pos f.category
    have := total_weight_nonneg t
    linarith

lemma issuesFor_metric_eq (prom : String → String → String → List ℚ)
    (service bv cv metric : String) (issue : MetricIssue)
    (h : issue ∈ issuesFor prom service bv cv metric) : issue.metric = metric := by
  simp only [issuesFor] at h
  split at h
  · rcases List.mem_singleton.mp h with rfl
    rfl
  · cases h

lemma pctChange_of_nonpos (prom : String → String → String → List ℚ)
    (service bv cv metric : String) (h : pyMean (prom metric service bv) ≤ 0) :
    pctChange prom service bv cv metric = 0 := by
  unfold pctChange
  simp only [if_neg (not_lt.mpr h)]

end Helpers

/-! ## Claims -/

/-- C5: for every comparison produced by compare_versions,
rollback_recommended is true iff at least 2 detected issues have severity
HIGH; in particular exactly one HIGH issue gives rollback_recommended
false. -/
theorem compare_versions_rollback_iff
    (prom : String → String → String → List ℚ) (service bv cv : String) :
    ((compare_versions prom service bv cv).rollback_recommended = true ↔
      2 ≤ ((compare_versions prom service bv cv).issues_detected.filter
            (fun i => i.severity == "HIGH")).length) ∧
    (((compare_versions prom service bv cv).issues_detected.filter
        (fun i => i.severity == "HIGH")).length = 1 →
      (compare_versions prom service bv cv).rollback_recommended = false) := by
  refine ⟨?_, ?_⟩
  · simp only [compare_versions, ge_iff_le, decide_eq_true_eq]
  · intro hone
    simp only [compare_versions] at hone ⊢
    simp only [hone]
    decide

/-- C6: a metric whose baseline sample mean is not positive gets percent
deviation 0 and status HEALTHY, and records no issue: the division by the
baseline mean is guarded by baseline mean > 0, so it is never a division
by zero. -/
theorem compare_versions_zero_baseline
    (prom : String → String → String → List ℚ) (service bv cv metric : String)
    (hb : pyMean (prom metric service bv) ≤ 0) :
    (∀ entry ∈ (compare_versions prom service bv cv).metric_comparisons,
      entry.1 = metric → entry.2.percent_change = 0 ∧ entry.2.status = "HEALTHY") ∧
    (∀ issue ∈ (compare_versions prom service bv cv).issues_detected,
      issue.metric ≠ metric) := by
  have hpct : pctChange prom service bv cv metric = 0 :=
    pctChange_of_nonpos prom service bv cv metric hb
  constructor
  · intro entry hentry hkey
    simp only [compare_versions, List.mem_map] at hentry
    obtain ⟨m, _, rfl⟩ := hentry
    simp only at hkey
    subst hkey
    simp only [metricResultFor, hpct, alert_threshold]
    norm_num
  · intro issue hissue
    simp only [compare_versions, List.mem_flatMap] at hissue
    obtain ⟨m, _, hm⟩ := hissue
    have hmet := issuesFor_metric_eq prom service bv cv m issue hm
    intro hcontra
    rw [hmet] at hcontra
    subst hcontra
    simp only [issuesFor] at hm
    rw [hpct, if_neg (by norm_num [alert_threshold])] at hm
    cases hm

/-- C6 witness: a concrete oracle whose baseline samples for error_rate
have mean 0. -/
theorem compare_versions_zero_baseline_witness :
    pyMean ((fun (_ _ _ : String) => [(0:ℚ)]) "error_rate" "svc" "v1") ≤ 0 ∧
    ((∀ entry ∈ (compare_versions (fun _ _ _ => [(0:ℚ)]) "svc" "v1" "v2").metric_comparisons,
      entry.1 = "error_rate" → entry.2.percent_change = 0 ∧ entry.2.status = "HEALTHY") ∧
    (∀ issue ∈ (compare_versions (fun _ _ _ => [(0:ℚ)]) "svc" "v1" "v2").issues_detected,
      issue.metric ≠ "error_rate")) :=
  ⟨by norm_num [pyMean],
   compare_versions_zero_baseline (fun _ _ _ => [(0:ℚ)]) "svc" "v1" "v2" "error_rate"
     (by norm_num [pyMean])⟩

/-- C1: on a request whose declared dependency graph restricted to the
requested services is acyclic (witnessed by a topological ranking),
discover_deployment_order reports no error, stages every requested service
exactly once, stages only requested services, and places every before-type
dependency that is itself requested into a strictly earlier stage-group
than its dependent. -/
theorem discover_deployment_order_acyclic_correct (dm : DependencyMap)
    (services : List String) (h : AcyclicOn dm services) :
    (discover_deployment_order dm services).2 = [] ∧
    (∀ s ∈ services,
      List.count s (discover_deployment_order dm services).1.flatten = 1) ∧
    (∀ x ∈ (discover_deployment_order dm services).1.flatten, x ∈ services) ∧
    (∀ s ∈ services, ∀ d ∈ dmGet dm s, d.deployment_order = "before" →
      d.service_name ∈ services →
      stageIndex (discover_deployment_order dm services).1 d.service_name <
        stageIndex (discover_deployment_order dm services).1 s) := by
  obtain ⟨rank, hrank⟩ := h
  have hrank2 : ∀ s ∈ services.dedup, ∀ d ∈ dmGet dm s,
      d.service_name ∈ services.dedup → rank d.service_name < rank s := by
    intro s hs d hd hdn
    exact hrank s (List.mem_dedup.mp hs) d hd (List.mem_dedup.mp hdn)
  unfold discover_deployment_order
  obtain ⟨h1, h2, h3, h4⟩ := discoverLoop_spec dm rank services.dedup.length
    services.dedup le_rfl (List.nodup_dedup services) hrank2
  refine ⟨h1, ?_, ?_, ?_⟩
  · intro s hs
    exact List.count_eq_one_of_mem h2 ((h3 s).mpr (List.mem_dedup.mpr hs))
  · intro x hx
    exact List.mem_dedup.mp ((h3 x).mp hx)
  · intro s hs d hd _ hdn
    exact h4 s (List.mem_dedup.mpr hs) d hd (List.mem_dedup.mpr hdn)

/-- C1 witness: payment-service depends on auth-service (before-type);
the ranking auth 0, payment 1 certifies acyclicity. -/
theorem discover_deployment_order_acyclic_correct_witness :
    AcyclicOn beforeDependencyMap ["auth-service", "payment-service"] ∧
    ((discover_deployment_order beforeDependencyMap
        ["auth-service", "payment-service"]).2 = [] ∧
     (∀ s ∈ ["auth-service", "payment-service"],
       List.count s (discover_deployment_order beforeDependencyMap
         ["auth-service", "payment-service"]).1.flatten = 1) ∧
     (∀ x ∈ (discover_deployment_order beforeDependencyMap
         ["auth-service", "payment-service"]).1.flatten,
       x ∈ ["auth-service", "payment-service"]) ∧
     (∀ s ∈ ["auth-service", "payment-service"],
       ∀ d ∈ dmGet beforeDependencyMap s, d.deployment_order = "before" →
       d.service_name ∈ ["auth-service", "payment-service"] →
       stageIndex (discover_deployment_order beforeDependencyMap
         ["auth-service", "payment-service"]).1 d.service_name <
         stageIndex (discover_deployment_order beforeDependencyMap
           ["auth-service", "payment-service"]).1 s)) :=
  ⟨⟨fun s => if s = "payment-service" then 1 else 0, by decide⟩,
   discover_deployment_order_acyclic_correct beforeDependencyMap
     ["auth-service", "payment-service"]
     ⟨fun s => if s = "payment-service" then 1 else 0, by decide⟩⟩

/-- C7: the code never reads the deployment_order hint, so a pure
parallel_with edge blocks exactly like a before edge: with svc-b declaring
only a parallel_with dependency on svc-a, the two services are forced into
distinct, ordered stage-groups instead of being allowed to share one. -/
theorem parallel_with_edge_blocks_stage :
    discover_deployment_order parallelDependencyMap ["svc-a", "svc-b"] =
      ([["svc-a"], ["svc-b"]], []) := by
  decide

/-- C10: self-edges are ignored by discover_deployment_order: removing
every self-edge from the dependency map leaves the result unchanged, and a
service whose only declared dependency names itself is staged normally
with no circular-dependency error. -/
theorem self_dependency_ignored :
    (∀ (dm : DependencyMap) (services : List String),
      discover_deployment_order dm services =
        discover_deployment_order (stripSelfDeps dm) services) ∧
    discover_deployment_order selfDependencyMap ["svc-a"] = ([["svc-a"]], []) := by
  constructor
  · intro dm services
    unfold discover_deployment_order
    rw [discoverLoop_stripSelfDeps]
  · decide

/-- C3: whenever the compliance data source reports the change as not
approved, the evaluator raises the severity-100 compliance factor
Change Not Approved, and the report returned by assess always has
autonomous_decision = false: the weighted average provably stays at or
above the autonomous-approval cutoff 30 for every combination of the
other evaluator factors, so the blocking factor can never be diluted below
it. -/
theorem assess_unapproved_change_blocks (i : AssessInput)
    (happ : i.compliance.change_approved = false) :
    change_not_approved_factor ∈ (assess i).factors ∧
    30 ≤ (assess i).risk_score ∧
    (assess i).autonomous_decision = false := by
  have hmem : change_not_approved_factor ∈ assessFactors i := by
    simp [assessFactors, complianceEvaluate, happ, change_not_approved_factor]
  have hne : assessFactors i ≠ [] := List.ne_nil_of_mem hmem
  have htw : 0 < total_weight (assessFactors i) := total_weight_pos hne
  have hdef : 30 * total_weight (assessFactors i) - weighted_sum (assessFactors i) ≤ -28 := by
    unfold assessFactors
    rw [deficit_append, deficit_append, deficit_append]
    have hs := security_deficit i.security
    have ht := testing_deficit i.testing
    have hc := compliance_deficit i.compliance i.environment i.now_hour happ
    have hi := infrastructure_deficit i.infra
    linarith
  have havg : ((30:ℤ) : ℚ) ≤ weighted_sum (assessFactors i) / total_weight (assessFactors i) := by
    rw [le_div_iff₀ htw]
    push_cast
    linarith
  have hscore : (30:ℤ) ≤ calculate_risk_score (assessFactors i) := by
    rw [calculate_risk_score, if_neg hne, if_pos htw]
    exact le_pyInt (by norm_num) havg
  refine ⟨?_, ?_, ?_⟩
  · show _ ∈ sortBySeverityDesc (assessFactors i)
    exact (mem_sortBySeverityDesc _ _).mpr hmem
  · exact hscore
  · show decide (calculate_risk_score (assessFactors i) < 30) = false
    simp only [decide_eq_false_iff_not, not_lt]
    exact hscore

/-- C3 witness: an otherwise healthy deployment context whose change is
not approved. -/
theorem assess_unapproved_change_blocks_witness :
    unapprovedAssessInput.compliance.change_approved = false ∧
    (change_not_approved_factor ∈ (assess unapprovedAssessInput).factors ∧
     30 ≤ (assess unapprovedAssessInput).risk_score ∧
     (assess unapprovedAssessInput).autonomous_decision = false) :=
  ⟨rfl, assess_unapproved_change_blocks unapprovedAssessInput rfl⟩

/-- C2 counterexample: two testing factors with severities 1 and 2 have
weighted average 1.5, whose nearest integer is 2, but
_calculate_risk_score returns int(1.5) = 1: the code truncates instead of
rounding to the nearest integer. -/
theorem risk_score_not_rounded_counterexample :
    calculate_risk_score
      [{ name := "A", severity := 1, category := "testing", description := "" },
       { name := "B", severity := 2, category := "testing", description := "" }] = 1 ∧
    spec_rounded_score
      [{ name := "A", severity := 1, category := "testing", description := "" },
       { name := "B", severity := 2, category := "testing", description := "" }] = 2 := by
  constructor
  · rw [calculate_risk_score, if_neg (by decide)]
    norm_num [weighted_sum, total_weight, pyInt, weights_get_testing]
  · rw [spec_rounded_score, if_neg (by decide)]
    norm_num [spec_weight_testing, round_eq]

/-- C2 (amended): for factor lists over the four named categories, the
composite score is the weighted average of factor severities with weights
compliance 1.5, security 1.3, testing 1.0, infrastructure 0.8, truncated
toward zero (not rounded to the nearest integer); it is 0 for the empty
factor list. -/
theorem risk_score_truncated_weighted_average (fs : List RiskFactor)
    (hcat : ∀ f ∈ fs, f.category = "compliance" ∨ f.category = "security" ∨
      f.category = "testing" ∨ f.category = "infrastructure") :
    calculate_risk_score fs =
      if fs = [] then 0
      else pyInt ((fs.map (fun f => f.severity * spec_weight f.category)).sum /
                  (fs.map (fun f => spec_weight f.category)).sum) := by
  have hw : ∀ f ∈ fs, weights_get f.category = spec_weight f.category := by
    intro f hf
    rcases hcat f hf with h | h | h | h <;> rw [h] <;> rfl
  by_cases hfs : fs = []
  · simp [hfs, calculate_risk_score]
  · have hmap1 : fs.map (fun f => f.severity * spec_weight f.category) =
        fs.map (fun f => f.severity * weights_get f.category) :=
      List.map_congr_left fun f hf => by rw [hw f hf]
    have hmap2 : fs.map (fun f => spec_weight f.category) =
        fs.map (fun f => weights_get f.category) :=
      List.map_congr_left fun f hf => by rw [hw f hf]
    rw [calculate_risk_score, if_neg hfs, if_pos (total_weight_pos hfs), if_neg hfs,
      hmap1, hmap2]
    rfl

/-- C2 witness: a singleton security factor instantiating the amended
truncation theorem. -/
theorem risk_score_truncated_weighted_average_witness :
    (∀ f ∈ [({ name := "W", severity := 50, category := "security",
               description := "" } : RiskFactor)],
      f.category = "compliance" ∨ f.category = "security" ∨
      f.category = "testing" ∨ f.category = "infrastructure") ∧
    calculate_risk_score
      [{ name := "W", severity := 50, category := "security", description := "" }] =
      if ([({ name := "W", severity := 50, category := "security",
              description := "" } : RiskFactor)] : List RiskFactor) = [] then 0
      else pyInt (([({ name := "W", severity := 50, category := "security",
                       description := "" } : RiskFactor)].map
                    (fun f => f.severity * spec_weight f.category)).sum /
                  ([({ name := "W", severity := 50, category := "security",
                       description := "" } : RiskFactor)].map
                    (fun f => spec_weight f.category)).sum) :=
  ⟨by decide,
   risk_score_truncated_weighted_average
     [{ name := "W", severity := 50, category := "security", description := "" }]
     (by decide)⟩

/-- C8: increasing the severity of one factor, holding every other factor
fixed, never decreases the composite risk score. -/
theorem risk_score_monotone (pre post : List RiskFactor) (f : RiskFactor) (s2 : ℚ)
    (h : f.severity ≤ s2) :
    calculate_risk_score (pre ++ f :: post) ≤
      calculate_risk_score (pre ++ { f with severity := s2 } :: post) := by
  have hne1 : pre ++ f :: post ≠ [] := by simp
  have hne2 : pre ++ { f with severity := s2 } :: post ≠ [] := by simp
  have htw : total_weight (pre ++ { f with severity := s2 } :: post) =
      total_weight (pre ++ f :: post) := by
    simp [total_weight]
  have hws : weighted_sum (pre ++ f :: post) ≤
      weighted_sum (pre ++ { f with severity := s2 } :: post) := by
    have hwpos := weights_get_pos f.category
    simp only [weighted_sum, List.map_append, List.sum_append, List.map_cons,
      List.sum_cons]
    have : f.severity * weights_get f.category ≤ s2 * weights_get f.category :=
      mul_le_mul_of_nonneg_right h hwpos.le
    linarith
  have htwpos := total_weight_pos hne1
  rw [calculate_risk_score, if_neg hne1, if_pos htwpos,
    calculate_risk_score, if_neg hne2, htw, if_pos htwpos]
  exact pyInt_mono (by gcongr)

/-- C8 witness: raising a testing factor severity from 10 to 20. -/
theorem risk_score_monotone_witness :
    ((10:ℚ) ≤ 20) ∧
    calculate_risk_score
      [{ name := "M", severity := 10, category := "testing", description := "" }] ≤
    calculate_risk_score
      [{ name := "M", severity := 20, category := "testing", description := "" }] :=
  ⟨by decide,
   risk_score_monotone [] []
     { name := "M", severity := 10, category := "testing", description := "" } 20
     (by decide)⟩

/-- C9 counterexample: a single factor with severity 0 (within the claimed
0-100 range) yields composite score 0 although the factor list is not
empty, so score 0 does not imply an empty factor list. -/
theorem risk_score_zero_nonempty_counterexample :
    (∀ f ∈ [({ name := "Zero", severity := 0, category := "testing",
               description := "" } : RiskFactor)],
      0 ≤ f.severity ∧ f.severity ≤ 100) ∧
    calculate_risk_score
      [{ name := "Zero", severity := 0, category := "testing", description := "" }] = 0 ∧
    ([({ name := "Zero", severity := 0, category := "testing",
         description := "" } : RiskFactor)] : List RiskFactor) ≠ [] := by
  refine ⟨by decide, ?_, by decide⟩
  rw [calculate_risk_score, if_neg (by decide)]
  norm_num [weighted_sum, total_weight, pyInt, weights_get_testing]

/-- C9 (amended): for factor lists whose severities lie in 1-100, the
composite score is 0 iff the factor list is empty. -/
theorem risk_score_zero_iff_empty (fs : List RiskFactor)
    (h : ∀ f ∈ fs, 1 ≤ f.severity ∧ f.severity ≤ 100) :
    calculate_risk_score fs = 0 ↔ fs = [] := by
  constructor
  · intro h0
    by_contra hne
    have htw : 0 < total_weight fs := total_weight_pos hne
    have hws : total_weight fs ≤ weighted_sum fs := by
      unfold total_weight weighted_sum
      apply List.sum_le_sum
      intro f hf
      have h1 := (h f hf).1
      have hwpos := weights_get_pos f.category
      nlinarith
    have h1 : (1:ℚ) ≤ weighted_sum fs / total_weight fs := by
      rw [le_div_iff₀ htw]
      linarith
    have h2 : (1:ℤ) ≤ pyInt (weighted_sum fs / total_weight fs) :=
      le_pyInt (by norm_num) (by exact_mod_cast h1)
    rw [calculate_risk_score, if_neg hne, if_pos htw] at h0
    omega
  · intro hfs
    subst hfs
    rfl

/-- C4: with the default stage weights [5, 25, 50, 100], a healthy 5%
stage followed by an unhealthy 25% stage makes deploy_canary return
ROLLED_BACK carrying the captured evaluation reason; the collaborator
trace ends with the traffic split restoring 100% of traffic to production
and 0% to the canary slot, and no stage of weight 50 or 100 is ever
entered (neither a stage record nor a traffic split for them exists). -/
theorem deploy_canary_degraded_at_25 (collect : ℕ → CanaryMetrics)
    (app_name new_version : String)
    (h1 : (evaluate_canary_metrics (collect 1)).healthy = true)
    (h2 : (evaluate_canary_metrics (collect 2)).healthy = false) :
    (deploy_canary collect app_name new_version).1.status = "ROLLED_BACK" ∧
    (deploy_canary collect app_name new_version).1.rollback_reason =
      some (evaluate_canary_metrics (collect 2)).reason ∧
    (deploy_canary collect app_name new_version).2 =
      [CanaryAction.deployToSlot app_name "staging" new_version,
       CanaryAction.setTrafficSplit app_name 95 5,
       CanaryAction.setTrafficSplit app_name 75 25,
       CanaryAction.setTrafficSplit app_name 100 0] ∧
    (∀ r ∈ (deploy_canary collect app_name new_version).1.stages,
      r.traffic_percent = 5 ∨ r.traffic_percent = 25) := by
  refine ⟨?_, ?_, ?_, ?_⟩ <;>
    simp [deploy_canary, canary_stages, canaryLoop, h1, h2]

/-- C4 witness: a concrete metrics oracle that is healthy at stage 1 and
reports a 5% error rate at stage 2. -/
theorem deploy_canary_degraded_at_25_witness :
    ((evaluate_canary_metrics
        ((fun n => if n = 2 then { error_rate := 5 } else {}) 1)).healthy = true) ∧
    ((evaluate_canary_metrics
        ((fun n => if n = 2 then { error_rate := 5 } else {}) 2)).healthy = false) ∧
    ((deploy_canary (fun n => if n = 2 then { error_rate := 5 } else {})
        "payments" "v2").1.status = "ROLLED_BACK" ∧
     (deploy_canary (fun n => if n = 2 then { error_rate := 5 } else {})
        "payments" "v2").1.rollback_reason =
       some (evaluate_canary_metrics
         ((fun n => if n = 2 then { error_rate := 5 } else {}) 2)).reason ∧
     (deploy_canary (fun n => if n = 2 then { error_rate := 5 } else {})
        "payments" "v2").2 =
       [CanaryAction.deployToSlot "payments" "staging" "v2",
        CanaryAction.setTrafficSplit "payments" 95 5,
        CanaryAction.setTrafficSplit "payments" 75 25,
        CanaryAction.setTrafficSplit "payments" 100 0] ∧
     (∀ r ∈ (deploy_canary (fun n => if n = 2 then { error_rate := 5 } else {})
        "payments" "v2").1.stages,
       r.traffic_percent = 5 ∨ r.traffic_percent = 25)) :=
  ⟨by decide, by decide,
   deploy_canary_degraded_at_25 (fun n => if n = 2 then { error_rate := 5 } else {})
     "payments" "v2" (by decide) (by decide)⟩

/-- C9 witness: a singleton factor of severity 50 instantiating the
amended zero-iff-empty theorem. -/
theorem risk_score_zero_iff_empty_witness :
    (∀ f ∈ [({ name := "V", severity := 50, category := "security",
               description := "" } : RiskFactor)],
      1 ≤ f.severity ∧ f.severity ≤ 100) ∧
    (calculate_risk_score
      [{ name := "V", severity := 50, category := "security", description := "" }] = 0 ↔
     ([({ name := "V", severity := 50, category := "security",
          description := "" } : RiskFactor)] : List RiskFactor) = []) :=
  ⟨by decide,
   risk_score_zero_iff_empty
     [{ name := "V", severity := 50, category := "security", description := "" }]
     (by decide)⟩
